import Mathlib

set_option autoImplicit false

/-!
Verification development for the res-adapter command-line driver
(`main.py` and `resadapter/model_loader.py`).

The driver is shallowly embedded: configuration values become a `Config`
record, PIL images become size-carrying records, the filesystem is an
explicit parameter, and the run (`main`) becomes a pure function producing
the list of observable events (directory creation, pipeline construction,
pipeline invocations with their keyword arguments, image saves) together
with either success or the Python exception that aborts the run.

Notes on fidelity:
* Python floats in the configuration are modelled as exact rationals; the
  scale ratio is kept as an explicit numerator/denominator pair of naturals
  so that `int(size * ratio)` is natural truncating division.
* `sub_task` and `kwargs` are locals of `main` that are only conditionally
  assigned; they are modelled as `Option` values, where `none` means
  "unbound", and reading an unbound local raises `UnboundLocalError`
  exactly as in Python.
* External library behaviour (the diffusion pipeline's forward pass,
  `set_adapters`, xformers, the random generator, tensor contents, text
  drawing) is out of scope; pipeline invocations are recorded as events
  carrying the exact keyword and common arguments the driver passes.
-/

/-- A PIL image as the driver observes it: the file it came from, its
current pixel dimensions, and the pure transformations applied to it
(`canny3` for the 3-channel Canny edge map, `L` for grayscale). -/
structure Image where
  path : String
  width : Nat
  height : Nat
  ops : List String := []
deriving DecidableEq, Repr

/-- The filesystem of source images: maps a path to the native
(width, height) of the image stored there. -/
def Disk := String → Nat × Nat

/-- `Image.open`: load an image at its native size. -/
def Image.open (disk : Disk) (p : String) : Image :=
  { path := p, width := (disk p).1, height := (disk p).2 }

/-- `image.resize((w, h))`. -/
def Image.resized (img : Image) (wh : Nat × Nat) : Image :=
  { img with width := wh.1, height := wh.2 }

/-- The 3-channel Canny edge map built in the controlnet branch
(`cv2.Canny` + channel replication); pixel-level content is out of scope,
only the provenance tag and unchanged dimensions are modelled. -/
def Image.canny3 (img : Image) : Image :=
  { img with ops := img.ops ++ ["canny3"] }

/-- `image.convert("L")` (grayscale). -/
def Image.convertL (img : Image) : Image :=
  { img with ops := img.ops ++ ["L"] }

/-- The configured scale ratio, kept as an exact fraction `num / den` so
that `int(native_size * ratio)` is natural division.  A ratio whose value
is zero is falsy in Python's `if config.get("scale_ratio", None):`. -/
structure SizeScale where
  num : Nat
  den : Nat
deriving DecidableEq, Repr

/-- The configuration file contents used by `main`.  Fields read through
`config.get(key, default)` with a `None`/empty default are `Option`s or
have the empty default inlined; `experiment_name` and `enable_compare` are
read by attribute access and are therefore plain fields. -/
structure Config where
  experiment_name : String := ""
  task : Option String := none
  sub_task : Option String := none
  prompts : List String := []
  n_prompt : String := ""
  source_images : List String := []
  condition_images : List String := []
  ip_adapter_images : List String := []
  mask_images : List String := []
  scale_ratio : Option SizeScale := none
  width : Option Nat := none
  height : Option Nat := none
  num_inference_steps : Option Nat := none
  num_images_per_prompt : Option Nat := none
  guidance_scale : Option ℚ := none
  seed : Option Nat := none
  res_adapter_model : String := ""
  enable_compare : Bool := false
  draw_text : Bool := false
  split_images : Bool := false
deriving DecidableEq

/-- The Python exceptions the driver itself can raise. -/
inductive PyErr where
  | notImplementedError
  | unboundLocal (name : String)
  | indexError
  | fileNotFoundError
deriving DecidableEq, Repr

/-- The keyword arguments assembled for a pipeline call beyond the common
parameters; a `none` field means the keyword is absent. -/
structure Kwargs where
  image : Option Image := none
  control_image : Option Image := none
  mask_image : Option Image := none
  ip_adapter_image : Option Image := none
  strength : Option ℚ := none
deriving DecidableEq, Repr

/-- The common parameters passed on every pipeline call
(lines 202-212 and 245-255 of `main.py`). -/
structure CommonParams where
  prompt : String
  negative_prompt : String
  height : Nat
  width : Nat
  num_inference_steps : Nat
  num_images_per_prompt : Nat
  guidance_scale : ℚ
deriving DecidableEq, Repr

/-- The observable events of a run, in program order. -/
inductive Event where
  | mkdirOutput (dir : String)
  | loadPipeline (task : String)
  | saveCondition (filename : String)
  | baselineCall (i : Nat) (kwargs : Kwargs) (params : CommonParams)
  | loadResAdapter
  | adaptedCall (i : Nat) (kwargs : Kwargs) (params : CommonParams)
  | save (i : Nat) (filename : String)
deriving DecidableEq, Repr

/-- Reading a `main` local that may be unbound: raises `UnboundLocalError`
when it was never assigned. -/
def readLocal {α : Type} (v : Option α) (name : String) : Except PyErr α :=
  match v with
  | some a => Except.ok a
  | none => Except.error (PyErr.unboundLocal name)

/-- Python list indexing `l[i]` (nonnegative index). -/
def listIndex {α : Type} (l : List α) (i : Nat) : Except PyErr α :=
  match l.get? i with
  | some a => Except.ok a
  | none => Except.error PyErr.indexError

/-- `Path(p).stem`: final path component without its last extension. -/
def pathStem (p : String) : String :=
  let base := ((p.splitOn "/").reverse).headD p
  let parts := base.splitOn "."
  if parts.length ≤ 1 then base else String.intercalate "." parts.dropLast

/-- Output directory name (lines 49-53): `samples/<experiment-name-or
-config-stem>-<timestamp>`. -/
def outputDir (cfg : Config) (configStem timeStr : String) : String :=
  if cfg.experiment_name ≠ "" then
    "samples/" ++ cfg.experiment_name ++ "-" ++ timeStr
  else
    "samples/" ++ configStem ++ "-" ++ timeStr

/-- The geometry block repeated verbatim at lines 86-89, 104-107, 118-121,
132-135 and 151-154 of `main.py`:
`if config.get("scale_ratio", None): width, height = int(native_w *
config.scale_ratio), int(native_h * config.scale_ratio) else: width,
height = config.get("width", 512), config.get("height", 512)`.
A present ratio of value zero is falsy, hence takes the fixed branch. -/
def resolveWH (cfg : Config) (nativeW nativeH : Nat) : Nat × Nat :=
  match cfg.scale_ratio with
  | some r =>
      if r.num = 0 then (cfg.width.getD 512, cfg.height.getD 512)
      else (nativeW * r.num / r.den, nativeH * r.num / r.den)
  | none => (cfg.width.getD 512, cfg.height.getD 512)

/-- Controlnet input preparation (lines 81-98): per source image path,
open, resize to the resolved geometry, derive and save the 3-channel edge
map.  The Python loop appends to `condition_images` / `source_images` in
order, i.e. it is a map over the path list. -/
def prepControlnet (cfg : Config) (disk : Disk) :
    List Event × List Image × List Image :=
  let entries := cfg.source_images.map (fun p =>
    let src0 := Image.open disk p
    let src := src0.resized (resolveWH cfg src0.width src0.height)
    let cond := src.canny3
    let s := pathStem p
    (Event.saveCondition s!"condition_{s}.jpg", cond, src))
  (entries.map (fun e => e.1),
   entries.map (fun e => e.2.1),
   entries.map (fun e => e.2.2))

/-- t2i_adapter input preparation (lines 100-109): open each condition
image, resize, convert to grayscale.  (Unreachable in a full run, since
the task dispatch has no `t2i_adapter` case; kept for fidelity.) -/
def prepT2iAdapter (cfg : Config) (disk : Disk) : List Image :=
  cfg.condition_images.map (fun p =>
    let c0 := Image.open disk p
    (c0.resized (resolveWH cfg c0.width c0.height)).convertL)

/-- ip_adapter / image_variation preparation (lines 114-124). -/
def prepIpVariation (cfg : Config) (disk : Disk) : List Image :=
  cfg.ip_adapter_images.map (fun p =>
    let ip0 := Image.open disk p
    ip0.resized (resolveWH cfg ip0.width ip0.height))

/-- ip_adapter / image_to_image preparation (lines 127-141): iterates
`zip(ip_adapter_images, source_images)`; the geometry is resolved from the
source image, and the reference image is resized to the same geometry.
Returns (ip_adapter_images, source_images). -/
def prepIpImg2Img (cfg : Config) (disk : Disk) : List Image × List Image :=
  let pairs := (cfg.ip_adapter_images.zip cfg.source_images).map (fun pr =>
    let src0 := Image.open disk pr.2
    let wh := resolveWH cfg src0.width src0.height
    (Image.resized (Image.open disk pr.1) wh, src0.resized wh))
  (pairs.map (fun e => e.1), pairs.map (fun e => e.2))

/-- ip_adapter / inpaint preparation (lines 144-164): iterates
`zip(ip_adapter_images, source_images, mask_images)`; geometry from the
source image.  Returns (ip_adapter_images, source_images, mask_images). -/
def prepIpInpaint (cfg : Config) (disk : Disk) :
    List Image × List Image × List Image :=
  let triples :=
    (cfg.ip_adapter_images.zip (cfg.source_images.zip cfg.mask_images)).map
      (fun tr =>
        let src0 := Image.open disk tr.2.1
        let wh := resolveWH cfg src0.width src0.height
        (Image.resized (Image.open disk tr.1) wh,
         src0.resized wh,
         Image.resized (Image.open disk tr.2.2) wh))
  (triples.map (fun e => e.1),
   triples.map (fun e => e.2.1),
   triples.map (fun e => e.2.2))

/-- The image lists prepared before the inference loops.  In Python these
are four conditionally-assigned locals; a list a given task never binds is
also never read by that task's kwargs branch, so the empty default is
never observable. -/
structure Prepared where
  condition_images : List Image := []
  source_images : List Image := []
  mask_images : List Image := []
  ip_adapter_images : List Image := []
deriving DecidableEq, Repr

/-- Section 3 of `main` (lines 81-167) for a task that passed dispatch:
prepare the per-index image lists; for `ip_adapter` an unrecognized
sub-task raises `NotImplementedError` (line 167). -/
def prepPhase (cfg : Config) (disk : Disk) (task : String) :
    List Event × Except PyErr Prepared :=
  if task = "controlnet" then
    let r := prepControlnet cfg disk
    (r.1, Except.ok { condition_images := r.2.1, source_images := r.2.2 })
  else if task = "t2i_adapter" then
    ([], Except.ok { condition_images := prepT2iAdapter cfg disk })
  else if task = "ip_adapter" then
    if cfg.sub_task = some "image_variation" then
      ([], Except.ok { ip_adapter_images := prepIpVariation cfg disk })
    else if cfg.sub_task = some "image_to_image" then
      let r := prepIpImg2Img cfg disk
      ([], Except.ok { ip_adapter_images := r.1, source_images := r.2 })
    else if cfg.sub_task = some "inpaint" then
      let r := prepIpInpaint cfg disk
      ([], Except.ok { ip_adapter_images := r.1, source_images := r.2.1,
                       mask_images := r.2.2 })
    else ([], Except.error PyErr.notImplementedError)
  else ([], Except.ok {})

/-- The assembly-site environment: the `task` string, the possibly-unbound
`sub_task` local (bound, at line 112, only inside the `ip_adapter` branch;
its bound value is the config's `sub_task` entry, itself possibly `None`),
and the four possibly-unbound image-list locals (a list the reachable
branches never index is safely defaulted to `[]`). -/
structure AsmEnv where
  task : String
  sub_task : Option (Option String)
  condition_images : List Image := []
  source_images : List Image := []
  mask_images : List Image := []
  ip_adapter_images : List Image := []
deriving DecidableEq, Repr

/-- Keyword-argument assembly in the baseline loop (lines 185-200 of
`main.py`).  The Python code is a chain of `if` statements over the
immutable locals `task` and `sub_task`, whose conditions are mutually
exclusive string comparisons, rendered here as `if/else`; a fall-through
that assigns no branch leaves the per-iteration `kwargs` local unbound,
so the subsequent `**kwargs` expansion raises `UnboundLocalError`. -/
def assembleKwargsBaseline (env : AsmEnv) (i : Nat) : Except PyErr Kwargs :=
  if env.task = "t2i" ∨ env.task = "t2i_accelerate" then
    Except.ok {}
  else if env.task = "controlnet" then
    (readLocal env.sub_task "sub_task").bind (fun st =>
      if st = some "text_to_image" then
        (listIndex env.condition_images i).bind (fun c =>
          Except.ok { image := some c })
      else if st = some "image_to_image" then
        (listIndex env.condition_images i).bind (fun c =>
          (listIndex env.source_images i).bind (fun s =>
            Except.ok { control_image := some c, image := some s }))
      else Except.error (PyErr.unboundLocal "kwargs"))
  else if env.task = "t2i_adapter" then
    (listIndex env.condition_images i).bind (fun c =>
      Except.ok { image := some c })
  else if env.task = "ip_adapter" then
    (readLocal env.sub_task "sub_task").bind (fun st =>
      if st = some "image_variation" then
        (listIndex env.ip_adapter_images i).bind (fun ip =>
          Except.ok { ip_adapter_image := some ip })
      else if st = some "image_to_image" then
        (listIndex env.source_images i).bind (fun s =>
          (listIndex env.ip_adapter_images i).bind (fun ip =>
            Except.ok { image := some s, ip_adapter_image := some ip,
                        strength := some (3/5 : ℚ) }))
      else if st = some "inpaint" then
        (listIndex env.source_images i).bind (fun s =>
          (listIndex env.mask_images i).bind (fun m =>
            (listIndex env.ip_adapter_images i).bind (fun ip =>
              Except.ok { image := some s, mask_image := some m,
                          ip_adapter_image := some ip,
                          strength := some (1/2 : ℚ) })))
      else Except.error (PyErr.unboundLocal "kwargs"))
  else Except.error (PyErr.unboundLocal "kwargs")

/-- Keyword-argument assembly in the res-adapter loop (lines 228-243 of
`main.py`); the source text there is a verbatim copy of lines 185-200. -/
def assembleKwargsAdapted (env : AsmEnv) (i : Nat) : Except PyErr Kwargs :=
  if env.task = "t2i" ∨ env.task = "t2i_accelerate" then
    Except.ok {}
  else if env.task = "controlnet" then
    (readLocal env.sub_task "sub_task").bind (fun st =>
      if st = some "text_to_image" then
        (listIndex env.condition_images i).bind (fun c =>
          Except.ok { image := some c })
      else if st = some "image_to_image" then
        (listIndex env.condition_images i).bind (fun c =>
          (listIndex env.source_images i).bind (fun s =>
            Except.ok { control_image := some c, image := some s }))
      else Except.error (PyErr.unboundLocal "kwargs"))
  else if env.task = "t2i_adapter" then
    (listIndex env.condition_images i).bind (fun c =>
      Except.ok { image := some c })
  else if env.task = "ip_adapter" then
    (readLocal env.sub_task "sub_task").bind (fun st =>
      if st = some "image_variation" then
        (listIndex env.ip_adapter_images i).bind (fun ip =>
          Except.ok { ip_adapter_image := some ip })
      else if st = some "image_to_image" then
        (listIndex env.source_images i).bind (fun s =>
          (listIndex env.ip_adapter_images i).bind (fun ip =>
            Except.ok { image := some s, ip_adapter_image := some ip,
                        strength := some (3/5 : ℚ) }))
      else if st = some "inpaint" then
        (listIndex env.source_images i).bind (fun s =>
          (listIndex env.mask_images i).bind (fun m =>
            (listIndex env.ip_adapter_images i).bind (fun ip =>
              Except.ok { image := some s, mask_image := some m,
                          ip_adapter_image := some ip,
                          strength := some (1/2 : ℚ) })))
      else Except.error (PyErr.unboundLocal "kwargs"))
  else Except.error (PyErr.unboundLocal "kwargs")

/-- Common parameters of a pipeline call, assembled from the configuration
with the `config.get` defaults of lines 202-212 / 245-255. -/
def commonParams (cfg : Config) (prompt : String) : CommonParams :=
  { prompt := prompt,
    negative_prompt := cfg.n_prompt,
    height := cfg.height.getD 512,
    width := cfg.width.getD 512,
    num_inference_steps := cfg.num_inference_steps.getD 25,
    num_images_per_prompt := cfg.num_images_per_prompt.getD 2,
    guidance_scale := cfg.guidance_scale.getD (15/2 : ℚ) }

/-- The save block of one res-adapter iteration (lines 259-283): with
comparison enabled, one tiled file per image index `j` (or, in split mode,
one file per row with the fixed "ResAdapter"/"Baseline" labels); with
comparison disabled, one file per image index.  Filenames truncate the
prompt to its first 100 characters. -/
def savesFor (cfg : Config) (enable : Bool) (i : Nat) (prompt : String) :
    List Event :=
  let p := prompt.take 100
  let nipp := cfg.num_images_per_prompt.getD 2
  if enable then
    (List.range nipp).flatMap (fun j =>
      if cfg.split_images then
        [Event.save i s!"{p}_{j}_ResAdapter.jpg",
         Event.save i s!"{p}_{j}_Baseline.jpg"]
      else
        [Event.save i s!"{p}_{j}.jpg"])
  else
    (List.range nipp).map (fun m => Event.save i s!"{p}_{m}.jpg")

/-- The baseline inference loop (lines 184-214): for each enumerated
prompt, assemble kwargs and invoke the pipeline; an exception aborts the
loop (and the run) at that iteration, before that pipeline call. -/
def baselineLoop (env : AsmEnv) (cfg : Config) :
    List (Nat × String) → List Event × Except PyErr Unit
  | [] => ([], Except.ok ())
  | (i, prompt) :: rest =>
    match assembleKwargsBaseline env i with
    | Except.error e => ([], Except.error e)
    | Except.ok kw =>
        let r := baselineLoop env cfg rest
        (Event.baselineCall i kw (commonParams cfg prompt) :: r.1, r.2)

/-- The res-adapter inference loop (lines 227-283): per enumerated prompt,
assemble kwargs, invoke the pipeline, then save this index's images. -/
def adaptedLoop (env : AsmEnv) (cfg : Config) (enable : Bool) :
    List (Nat × String) → List Event × Except PyErr Unit
  | [] => ([], Except.ok ())
  | (i, prompt) :: rest =>
    match assembleKwargsAdapted env i with
    | Except.error e => ([], Except.error e)
    | Except.ok kw =>
        let r := adaptedLoop env cfg enable rest
        (Event.adaptedCall i kw (commonParams cfg prompt)
           :: (savesFor cfg enable i prompt ++ r.1), r.2)

/-- The comparison gate (lines 176-179): `enable_compare` is forced to
`False` when no res-adapter model path is configured; only otherwise is
the config's `enable_compare` flag consulted. -/
def enableCompare (cfg : Config) : Bool :=
  if cfg.res_adapter_model = "" then false else cfg.enable_compare

/-- The assembly environment of the inference loops: the `task` local, the
`sub_task` local (assigned, at line 112, only in the `ip_adapter` branch)
and the four prepared image-list locals. -/
def runEnv (cfg : Config) (task : String) (lists : Prepared) : AsmEnv :=
  { task := task,
    sub_task := if task = "ip_adapter" then some cfg.sub_task else none,
    condition_images := lists.condition_images,
    source_images := lists.source_images,
    mask_images := lists.mask_images,
    ip_adapter_images := lists.ip_adapter_images }

/-- The baseline pass (lines 181-214): the baseline loop when comparison
is enabled, nothing otherwise. -/
def basePass (cfg : Config) (env : AsmEnv) :
    List Event × Except PyErr Unit :=
  if enableCompare cfg then baselineLoop env cfg cfg.prompts.enum
  else ([], Except.ok ())

/-- Sections 3-4 of `main` for a task that passed dispatch: preparation,
comparison gate, optional baseline pass, res-adapter loading, and the
res-adapter pass with its saves. -/
def runWithTask (cfg : Config) (disk : Disk) (task : String) :
    List Event × Except PyErr Unit :=
  let prep := prepPhase cfg disk task
  match prep.2 with
  | Except.error e => (prep.1, Except.error e)
  | Except.ok lists =>
    let env := runEnv cfg task lists
    let base := basePass cfg env
    match base.2 with
    | Except.error e => (prep.1 ++ base.1, Except.error e)
    | Except.ok _ =>
      let loadEvents :=
        if cfg.res_adapter_model ≠ "" then [Event.loadResAdapter] else []
      let adapted := adaptedLoop env cfg (enableCompare cfg) cfg.prompts.enum
      (prep.1 ++ base.1 ++ loadEvents ++ adapted.1, adapted.2)

/-- The whole of `main` after argument parsing, as the list of observable
events plus the outcome.  `configStem` is the stem of the `--config` path
and `timeStr` the formatted start time, both externally supplied.  The
task dispatch (lines 58-68) recognizes exactly four task strings and
raises `NotImplementedError` otherwise, after the output directory was
created but before any pipeline is constructed. -/
def mainRun (cfg : Config) (disk : Disk) (configStem timeStr : String) :
    List Event × Except PyErr Unit :=
  let dirEvents := [Event.mkdirOutput (outputDir cfg configStem timeStr)]
  let task := cfg.task
  if task = some "t2i" then
    let r := runWithTask cfg disk "t2i"
    (dirEvents ++ Event.loadPipeline "t2i" :: r.1, r.2)
  else if task = some "t2i_accelerate" then
    let r := runWithTask cfg disk "t2i_accelerate"
    (dirEvents ++ Event.loadPipeline "t2i_accelerate" :: r.1, r.2)
  else if task = some "controlnet" then
    let r := runWithTask cfg disk "controlnet"
    (dirEvents ++ Event.loadPipeline "controlnet" :: r.1, r.2)
  else if task = some "ip_adapter" then
    let r := runWithTask cfg disk "ip_adapter"
    (dirEvents ++ Event.loadPipeline "ip_adapter" :: r.1, r.2)
  else (dirEvents, Except.error PyErr.notImplementedError)

/-- The base pipeline as `load_resadapter` observes it: the unet's named
weights (tensors abstracted to integers) and the registered adapter
names in registration order. -/
structure Pipeline where
  unet_weights : List (String × Int) := []
  adapters : List String := []
deriving DecidableEq, Repr

/-- The on-disk contents of the configured res-adapter directory: for each
of the two fixed file names, `none` when opening/reading that file fails
(e.g. the file is missing), otherwise the tensor-name-keyed weights. -/
structure WeightsDir where
  norm_file : Option (List (String × Int)) := none
  lora_file : Option (List (String × Int)) := none
deriving DecidableEq, Repr

/-- `NORM_WEIGHTS_NAME` in `model_loader.py`. -/
def NORM_WEIGHTS_NAME : String := "diffusion_pytorch_model.safetensors"

/-- `LORA_WEIGHTS_NAME` in `model_loader.py`. -/
def LORA_WEIGHTS_NAME : String := "pytorch_lora_weights.safetensors"

/-- `unet.load_state_dict(sd, strict=False)`: keys present in both the
model and the state dict are overwritten; keys of either side missing on
the other are ignored (non-strict partial load). -/
def loadStateDictNonStrict (w sd : List (String × Int)) :
    List (String × Int) :=
  w.map (fun kv =>
    match sd.lookup kv.1 with
    | some v => (kv.1, v)
    | none => kv)

/-- `load_resadapter` from `resadapter/model_loader.py` (lines 20-39): a
bare `try/except` makes the normalization-weights load best-effort (any
failure, e.g. a missing file, is logged and skipped), then the lora
weights are loaded unconditionally and registered under the fixed adapter
name "res_adapter"; a missing lora file raises.  Returns the updated
pipeline and the log lines printed. -/
def load_resadapter (pipeline : Pipeline) (dir : WeightsDir) :
    Except PyErr (Pipeline × List String) :=
  let step1 : Pipeline × List String :=
    match dir.norm_file with
    | some sd =>
        ({ pipeline with
             unet_weights := loadStateDictNonStrict pipeline.unet_weights sd },
         ["Load normalization safetensors."])
    | none =>
        (pipeline,
         ["There is no normalization safetensors, we can only load lora safetensors for resolution interpolation."])
  match dir.lora_file with
  | some _ =>
      Except.ok
        ({ step1.1 with adapters := step1.1.adapters ++ ["res_adapter"] },
         step1.2)
  | none => Except.error PyErr.fileNotFoundError

/-- The prompt index of an event when the event belongs to the processing
of one prompt (a pipeline call or an image save), `none` otherwise. -/
def promptIdxOf : Event → Option Nat
  | Event.baselineCall i _ _ => some i
  | Event.adaptedCall i _ _ => some i
  | Event.save i _ => some i
  | _ => none

/-- The (pass, prompt index) key of an event: pass 0 for baseline calls,
pass 1 for adapted calls and saves, `none` for unindexed events. -/
def passKey : Event → Option (Nat × Nat)
  | Event.baselineCall i _ _ => some (0, i)
  | Event.adaptedCall i _ _ => some (1, i)
  | Event.save i _ => some (1, i)
  | _ => none

/-- Is this event a baseline pipeline call? -/
def isBaselineCall : Event → Bool
  | Event.baselineCall _ _ _ => true
  | _ => false

/-- Is this event a pipeline call (baseline or adapted)? -/
def isCall : Event → Bool
  | Event.baselineCall _ _ _ => true
  | Event.adaptedCall _ _ _ => true
  | _ => false

/-- The common parameters of a pipeline-call event, `none` otherwise. -/
def callParamsOf : Event → Option CommonParams
  | Event.baselineCall _ _ p => some p
  | Event.adaptedCall _ _ p => some p
  | _ => none

/-- C2's claim, as stated: every event belonging to prompt index `i`
(either pipeline call, any save) precedes every event belonging to a
larger prompt index. -/
def fullySequential (t : List Event) : Prop :=
  List.Pairwise (fun a b => a ≤ b) (t.filterMap promptIdxOf)

/-- Lexicographic order on (pass, prompt index) keys. -/
def keyLe (a b : Nat × Nat) : Prop :=
  a.1 < b.1 ∨ (a.1 = b.1 ∧ a.2 ≤ b.2)

/-- The two-pass ordering the code actually implements: baseline calls,
in ascending prompt order, all precede every adapted call and save; the
adapted pass is in ascending prompt order with each index's saves
attached to its call. -/
def twoPassOrdered (t : List Event) : Prop :=
  List.Pairwise keyLe (t.filterMap passKey)

/-- Round half up of the exact rational `a / b`, used to read the spec's
`round(native_size * ratio)`.  At every input relevant below the result
agrees with Python's banker's rounding (the counterexample value 3.5
rounds to 4 under both conventions). -/
def roundHalfUp (a b : Nat) : Nat := (2 * a + b) / (2 * b)

/-- Modelled from the spec's words for C4: "if a scale-ratio is
configured, (width, height) = round(native_width * ratio), round(
native_height * ratio) ...; otherwise the configured fixed width and
height, each defaulting to 512 when absent". -/
def specGeometryRound (scale_ratio : Option SizeScale)
    (w h : Option Nat) (native : Nat × Nat) : Nat × Nat :=
  match scale_ratio with
  | some r => (roundHalfUp (native.1 * r.num) r.den,
               roundHalfUp (native.2 * r.num) r.den)
  | none => (w.getD 512, h.getD 512)

/-- The amended reading of C4: truncation toward zero (`int(...)`) in
place of rounding; a configured ratio of value zero is falsy and behaves
as if no ratio were configured. -/
def specGeometryTrunc (scale_ratio : Option SizeScale)
    (w h : Option Nat) (native : Nat × Nat) : Nat × Nat :=
  match scale_ratio with
  | some r =>
      if r.num = 0 then (w.getD 512, h.getD 512)
      else (native.1 * r.num / r.den, native.2 * r.num / r.den)
  | none => (w.getD 512, h.getD 512)

/-- The demo filesystem: every image file has native size 8 x 6. -/
def diskDemo : Disk := fun _ => (8, 6)

/-- The demo filesystem for the geometry counterexample: native size
7 x 6, so that a 0.5 scale ratio hits the half-way case 3.5. -/
def diskGeom : Disk := fun _ => (7, 6)

/-- A demo reference image. -/
def imgDemo : Image := { path := "ref.png", width := 4, height := 4 }

/-- A demo assembly environment for the ip_adapter image-variation row. -/
def envVar : AsmEnv :=
  { task := "ip_adapter", sub_task := some (some "image_variation"),
    ip_adapter_images := [imgDemo] }

/-- A configuration with an unrecognized task tag. -/
def cfgBogus : Config := { task := some "bogus", prompts := ["p"] }

/-- A configuration selecting the t2i_adapter task. -/
def cfgT2ia : Config :=
  { task := some "t2i_adapter", prompts := ["p"],
    condition_images := ["sketch.png"] }

/-- A controlnet configuration whose config file even carries the
`sub_task` key (which `main` never reads for this task). -/
def cfgCtrl : Config :=
  { task := some "controlnet", sub_task := some "text_to_image",
    prompts := ["p"], source_images := ["a.png"] }

/-- A controlnet configuration with comparison enabled. -/
def cfgCtrlB : Config :=
  { task := some "controlnet", prompts := ["q"],
    source_images := ["b.png"], res_adapter_model := "weights",
    enable_compare := true }

/-- A controlnet configuration with a 0.5 scale ratio. -/
def cfgGeom : Config :=
  { task := some "controlnet", prompts := ["p"],
    source_images := ["imgs/a.png"],
    scale_ratio := some { num := 1, den := 2 } }

/-- An ip_adapter/image_to_image configuration with mismatched list
lengths (two reference images, one source image). -/
def cfgZipA : Config :=
  { task := some "ip_adapter", sub_task := some "image_to_image",
    prompts := ["p"], ip_adapter_images := ["r1.png", "r2.png"],
    source_images := ["s1.png"] }

/-- An ip_adapter/inpaint configuration with mismatched list lengths. -/
def cfgZipB : Config :=
  { task := some "ip_adapter", sub_task := some "inpaint",
    prompts := ["p"], ip_adapter_images := ["r1.png", "r2.png", "r3.png"],
    source_images := ["s1.png", "s2.png"], mask_images := ["m1.png"] }

/-- A two-prompt t2i configuration with comparison enabled. -/
def cfgTwo : Config :=
  { task := some "t2i", prompts := ["a", "b"],
    res_adapter_model := "m", enable_compare := true,
    num_images_per_prompt := some 1, guidance_scale := some 7 }

/-- A one-prompt t2i configuration with comparison enabled. -/
def cfgCmp : Config :=
  { task := some "t2i", prompts := ["a"],
    res_adapter_model := "m", enable_compare := true,
    guidance_scale := some 7 }

/-- A one-prompt t2i configuration with comparison disabled. -/
def cfgTen : Config :=
  { task := some "t2i", prompts := ["p"], guidance_scale := some 7 }

/-- Every event emitted by the controlnet preparation is a condition-image
save. -/
theorem prepControlnet_events (cfg : Config) (disk : Disk) (e : Event)
    (h : e ∈ (prepControlnet cfg disk).1) : ∃ f, e = Event.saveCondition f := by
  simp [prepControlnet] at h
  obtain ⟨p, hp, he⟩ := h
  exact ⟨_, he.symm⟩

/-- Every event emitted by the preparation phase is a condition-image
save. -/
theorem prepPhase_events (cfg : Config) (disk : Disk) (task : String)
    (e : Event) (h : e ∈ (prepPhase cfg disk task).1) :
    ∃ f, e = Event.saveCondition f := by
  by_cases h1 : task = "controlnet"
  · simp only [prepPhase, h1, if_true] at h
    exact prepControlnet_events cfg disk e h
  · by_cases h2 : task = "t2i_adapter"
    · simp [prepPhase, h1, h2] at h
    · by_cases h3 : task = "ip_adapter"
      · by_cases h4 : cfg.sub_task = some "image_variation"
        · simp [prepPhase, h1, h2, h3, h4] at h
        · by_cases h5 : cfg.sub_task = some "image_to_image"
          · simp [prepPhase, h1, h2, h3, h4, h5] at h
          · by_cases h6 : cfg.sub_task = some "inpaint"
            · simp [prepPhase, h1, h2, h3, h4, h5, h6] at h
            · simp [prepPhase, h1, h2, h3, h4, h5, h6] at h
      · simp [prepPhase, h1, h2, h3] at h

/-- Every event of the save block of iteration `i` is a save of prompt
index `i`. -/
theorem savesFor_mem (cfg : Config) (en : Bool) (i : Nat) (p : String)
    (e : Event) (h : e ∈ savesFor cfg en i p) : ∃ f, e = Event.save i f := by
  cases en with
  | false =>
      simp [savesFor] at h
      obtain ⟨m, _, hm⟩ := h
      exact ⟨_, hm.symm⟩
  | true =>
      by_cases hs : cfg.split_images <;> simp [savesFor, hs] at h
      · obtain ⟨j, _, hj⟩ := h
        rcases hj with hj | hj <;> exact ⟨_, hj⟩
      · obtain ⟨j, _, hj⟩ := h
        exact ⟨_, hj⟩

/-- Every event of the baseline loop is a baseline call of an enumerated
prompt, carrying that prompt's common parameters. -/
theorem baselineLoop_mem (env : AsmEnv) (cfg : Config)
    (l : List (Nat × String)) (e : Event)
    (h : e ∈ (baselineLoop env cfg l).1) :
    ∃ i prompt kw, (i, prompt) ∈ l ∧
      e = Event.baselineCall i kw (commonParams cfg prompt) := by
  induction l with
  | nil => simp [baselineLoop] at h
  | cons hd tl ih =>
      obtain ⟨i, p⟩ := hd
      cases hasm : assembleKwargsBaseline env i with
      | error err => simp [baselineLoop, hasm] at h
      | ok kw =>
          simp only [baselineLoop, hasm, List.mem_cons] at h
          rcases h with h | h
          · exact ⟨i, p, kw, by simp, h⟩
          · obtain ⟨i', p', kw', hmem, he⟩ := ih h
            exact ⟨i', p', kw', by simp [hmem], he⟩

/-- Every event of the res-adapter loop is an adapted call with that
prompt's common parameters, or an image save. -/
theorem adaptedLoop_mem (env : AsmEnv) (cfg : Config) (en : Bool)
    (l : List (Nat × String)) (e : Event)
    (h : e ∈ (adaptedLoop env cfg en l).1) :
    (∃ i prompt kw, (i, prompt) ∈ l ∧
       e = Event.adaptedCall i kw (commonParams cfg prompt))
    ∨ (∃ i f, e = Event.save i f) := by
  induction l with
  | nil => simp [adaptedLoop] at h
  | cons hd tl ih =>
      obtain ⟨i, p⟩ := hd
      cases hasm : assembleKwargsAdapted env i with
      | error err => simp [adaptedLoop, hasm] at h
      | ok kw =>
          simp only [adaptedLoop, hasm, List.mem_cons, List.mem_append] at h
          rcases h with h | h | h
          · exact Or.inl ⟨i, p, kw, by simp, h⟩
          · obtain ⟨f, hf⟩ := savesFor_mem cfg en i p e h
            exact Or.inr ⟨i, f, hf⟩
          · rcases ih h with ⟨i', p', kw', hmem, he⟩ | hr
            · exact Or.inl ⟨i', p', kw', by simp [hmem], he⟩
            · exact Or.inr hr

/-- Events of the baseline pass exist only when comparison is enabled, and
then come from the baseline loop. -/
theorem basePass_mem (cfg : Config) (env : AsmEnv) (e : Event)
    (h : e ∈ (basePass cfg env).1) :
    enableCompare cfg = true ∧
      e ∈ (baselineLoop env cfg cfg.prompts.enum).1 := by
  by_cases hc : enableCompare cfg
  · exact ⟨hc, by simpa [basePass, hc] using h⟩
  · simp [basePass, hc] at h

/-- The trace of the post-dispatch run is one of three prefixes: the
preparation events alone (preparation raised), preparation plus baseline
pass (the baseline pass raised), or the full four-segment trace. -/
theorem runWithTask_shape (cfg : Config) (disk : Disk) (task : String) :
    runWithTask cfg disk task =
      ((prepPhase cfg disk task).1, (runWithTask cfg disk task).2)
    ∨ (∃ lists, (prepPhase cfg disk task).2 = Except.ok lists ∧
        (runWithTask cfg disk task =
            ((prepPhase cfg disk task).1 ++
               (basePass cfg (runEnv cfg task lists)).1,
             (runWithTask cfg disk task).2)
         ∨ runWithTask cfg disk task =
            ((prepPhase cfg disk task).1 ++
               (basePass cfg (runEnv cfg task lists)).1 ++
               (if cfg.res_adapter_model ≠ "" then [Event.loadResAdapter]
                else []) ++
               (adaptedLoop (runEnv cfg task lists) cfg (enableCompare cfg)
                  cfg.prompts.enum).1,
             (runWithTask cfg disk task).2))) := by
  cases hprep : (prepPhase cfg disk task).2 with
  | error err =>
      left
      simp only [runWithTask, hprep]
  | ok lists =>
      right
      refine ⟨lists, rfl, ?_⟩
      cases hbase : (basePass cfg (runEnv cfg task lists)).2 with
      | error err =>
          left
          simp only [runWithTask, hprep, hbase]
      | ok u =>
          right
          simp only [runWithTask, hprep, hbase]

/-- The lexicographic order on pass keys is reflexive. -/
theorem keyLe_refl (k : Nat × Nat) : keyLe k k := Or.inr ⟨rfl, le_refl _⟩

/-- Preparation events carry no (pass, prompt) key. -/
theorem prepPhase_keys (cfg : Config) (disk : Disk) (task : String) :
    (prepPhase cfg disk task).1.filterMap passKey = [] := by
  rw [List.filterMap_eq_nil_iff]
  intro e he
  obtain ⟨f, hf⟩ := prepPhase_events cfg disk task e he
  simp [hf, passKey]

/-- Every key of the save block of iteration `i` is `(1, i)`. -/
theorem savesFor_keys (cfg : Config) (en : Bool) (i : Nat) (p : String)
    (k : Nat × Nat) (h : k ∈ (savesFor cfg en i p).filterMap passKey) :
    k = (1, i) := by
  simp only [List.mem_filterMap] at h
  obtain ⟨e, he, hk⟩ := h
  obtain ⟨f, hf⟩ := savesFor_mem cfg en i p e he
  rw [hf] at hk
  simp [passKey] at hk
  exact hk.symm

/-- The keys of the baseline loop over prompts enumerated from `n` are
sorted and lie in pass 0 at indices at least `n`. -/
theorem baselineLoop_keys (env : AsmEnv) (cfg : Config) (ps : List String) :
    ∀ n : Nat,
      List.Pairwise keyLe
        ((baselineLoop env cfg (List.enumFrom n ps)).1.filterMap passKey)
      ∧ ∀ k ∈ (baselineLoop env cfg (List.enumFrom n ps)).1.filterMap passKey,
          k.1 = 0 ∧ n ≤ k.2 := by
  induction ps with
  | nil => intro n; simp [baselineLoop]
  | cons p tl ih =>
      intro n
      rw [List.enumFrom_cons]
      cases hasm : assembleKwargsBaseline env n with
      | error err => simp [baselineLoop, hasm]
      | ok kw =>
          simp only [baselineLoop, hasm, List.filterMap_cons]
          have hpk : passKey (Event.baselineCall n kw (commonParams cfg p)) =
              some (0, n) := rfl
          rw [hpk]
          constructor
          · refine List.Pairwise.cons ?_ (ih (n + 1)).1
            intro k hk
            obtain ⟨hk1, hk2⟩ := (ih (n + 1)).2 k hk
            exact Or.inr ⟨hk1.symm, le_trans (Nat.le_succ n) hk2⟩
          · intro k hk
            rcases List.mem_cons.mp hk with hk | hk
            · simp [hk]
            · obtain ⟨hk1, hk2⟩ := (ih (n + 1)).2 k hk
              exact ⟨hk1, le_trans (Nat.le_succ n) hk2⟩

/-- The keys of the res-adapter loop over prompts enumerated from `n` are
sorted and lie in pass 1 at indices at least `n`. -/
theorem adaptedLoop_keys (env : AsmEnv) (cfg : Config) (en : Bool)
    (ps : List String) :
    ∀ n : Nat,
      List.Pairwise keyLe
        ((adaptedLoop env cfg en (List.enumFrom n ps)).1.filterMap passKey)
      ∧ ∀ k ∈ (adaptedLoop env cfg en (List.enumFrom n ps)).1.filterMap passKey,
          k.1 = 1 ∧ n ≤ k.2 := by
  induction ps with
  | nil => intro n; simp [adaptedLoop]
  | cons p tl ih =>
      intro n
      rw [List.enumFrom_cons]
      cases hasm : assembleKwargsAdapted env n with
      | error err => simp [adaptedLoop, hasm]
      | ok kw =>
          simp only [adaptedLoop, hasm, List.filterMap_cons,
            List.filterMap_append]
          have hpk : passKey (Event.adaptedCall n kw (commonParams cfg p)) =
              some (1, n) := rfl
          rw [hpk]
          have hsaves : ∀ k ∈ (savesFor cfg en n p).filterMap passKey,
              k = (1, n) := savesFor_keys cfg en n p
          have htail : ∀ k ∈ (savesFor cfg en n p).filterMap passKey ++
              (adaptedLoop env cfg en (List.enumFrom (n + 1) tl)).1.filterMap
                passKey, k.1 = 1 ∧ n ≤ k.2 := by
            intro k hk
            rcases List.mem_append.mp hk with hk | hk
            · rw [hsaves k hk]; exact ⟨rfl, le_refl n⟩
            · obtain ⟨hk1, hk2⟩ := (ih (n + 1)).2 k hk
              exact ⟨hk1, le_trans (Nat.le_succ n) hk2⟩
          constructor
          · refine List.Pairwise.cons ?_ ?_
            · intro k hk
              obtain ⟨hk1, hk2⟩ := htail k hk
              exact Or.inr ⟨hk1.symm, hk2⟩
            · rw [List.pairwise_append]
              refine ⟨?_, (ih (n + 1)).1, ?_⟩
              · refine List.pairwise_of_forall_mem_list ?_
                intro a ha b hb
                rw [hsaves a ha, hsaves b hb]
                exact keyLe_refl _
              · intro a ha b hb
                rw [hsaves a ha]
                obtain ⟨hb1, hb2⟩ := (ih (n + 1)).2 b hb
                exact Or.inr ⟨hb1.symm, le_trans (Nat.le_succ n) hb2⟩
          · intro k hk
            rcases List.mem_cons.mp hk with hk | hk
            · simp [hk]
            · exact htail k hk

/-- A run is either refused at dispatch (directory created, nothing else)
or proceeds with one of the four recognized tasks. -/
theorem mainRun_shape (cfg : Config) (disk : Disk) (cs ts : String) :
    mainRun cfg disk cs ts =
      ([Event.mkdirOutput (outputDir cfg cs ts)],
       Except.error PyErr.notImplementedError)
    ∨ ∃ task, cfg.task = some task ∧
        mainRun cfg disk cs ts =
          ([Event.mkdirOutput (outputDir cfg cs ts)] ++
             Event.loadPipeline task :: (runWithTask cfg disk task).1,
           (runWithTask cfg disk task).2) := by
  by_cases h1 : cfg.task = some "t2i"
  · exact Or.inr ⟨"t2i", h1, by simp [mainRun, h1]⟩
  by_cases h2 : cfg.task = some "t2i_accelerate"
  · exact Or.inr ⟨"t2i_accelerate", h2, by simp [mainRun, h1, h2]⟩
  by_cases h3 : cfg.task = some "controlnet"
  · exact Or.inr ⟨"controlnet", h3, by simp [mainRun, h1, h2, h3]⟩
  by_cases h4 : cfg.task = some "ip_adapter"
  · exact Or.inr ⟨"ip_adapter", h4, by simp [mainRun, h1, h2, h3, h4]⟩
  exact Or.inl (by simp [mainRun, h1, h2, h3, h4])

/-- The keys of the baseline pass are sorted and lie in pass 0. -/
theorem basePass_keys (cfg : Config) (env : AsmEnv) :
    List.Pairwise keyLe ((basePass cfg env).1.filterMap passKey)
    ∧ ∀ k ∈ (basePass cfg env).1.filterMap passKey, k.1 = 0 := by
  by_cases hc : enableCompare cfg
  · have henum : cfg.prompts.enum = List.enumFrom 0 cfg.prompts := rfl
    have hk := baselineLoop_keys env cfg cfg.prompts 0
    rw [← henum] at hk
    simp only [basePass, hc, if_true]
    exact ⟨hk.1, fun k hkk => (hk.2 k hkk).1⟩
  · simp [basePass, hc]

/-- The keys of the res-adapter pass over the enumerated prompts are
sorted and lie in pass 1. -/
theorem adaptedLoop_keys_enum (env : AsmEnv) (cfg : Config) (en : Bool) :
    List.Pairwise keyLe
      ((adaptedLoop env cfg en cfg.prompts.enum).1.filterMap passKey)
    ∧ ∀ k ∈ (adaptedLoop env cfg en cfg.prompts.enum).1.filterMap passKey,
        k.1 = 1 := by
  have henum : cfg.prompts.enum = List.enumFrom 0 cfg.prompts := rfl
  have hk := adaptedLoop_keys env cfg en cfg.prompts 0
  rw [← henum] at hk
  exact ⟨hk.1, fun k hkk => (hk.2 k hkk).1⟩

/-- The optional adapter-load event carries no key. -/
theorem loadEvents_keys (c : Prop) [Decidable c] :
    ((if c then [Event.loadResAdapter] else []).filterMap passKey) = [] := by
  by_cases hc : c <;> simp [hc, passKey]

/-- Dissection of run-trace membership into the event's origin. -/
theorem runWithTask_mem (cfg : Config) (disk : Disk) (task : String)
    (e : Event) (h : e ∈ (runWithTask cfg disk task).1) :
    (∃ f, e = Event.saveCondition f)
    ∨ (∃ lists, enableCompare cfg = true ∧
        e ∈ (baselineLoop (runEnv cfg task lists) cfg cfg.prompts.enum).1)
    ∨ e = Event.loadResAdapter
    ∨ (∃ lists,
        e ∈ (adaptedLoop (runEnv cfg task lists) cfg (enableCompare cfg)
          cfg.prompts.enum).1) := by
  rcases runWithTask_shape cfg disk task with hs | ⟨lists, hprep, hs | hs⟩
  · rw [show (runWithTask cfg disk task).1 = (prepPhase cfg disk task).1 from
        congrArg Prod.fst hs] at h
    exact Or.inl (prepPhase_events cfg disk task e h)
  · rw [show (runWithTask cfg disk task).1 =
        (prepPhase cfg disk task).1 ++ (basePass cfg (runEnv cfg task lists)).1
        from congrArg Prod.fst hs] at h
    rcases List.mem_append.mp h with h | h
    · exact Or.inl (prepPhase_events cfg disk task e h)
    · obtain ⟨hc, hm⟩ := basePass_mem cfg (runEnv cfg task lists) e h
      exact Or.inr (Or.inl ⟨lists, hc, hm⟩)
  · rw [show (runWithTask cfg disk task).1 =
        (prepPhase cfg disk task).1 ++
          (basePass cfg (runEnv cfg task lists)).1 ++
          (if cfg.res_adapter_model ≠ "" then [Event.loadResAdapter]
           else []) ++
          (adaptedLoop (runEnv cfg task lists) cfg (enableCompare cfg)
             cfg.prompts.enum).1
        from congrArg Prod.fst hs] at h
    rcases List.mem_append.mp h with h | h
    · rcases List.mem_append.mp h with h | h
      · rcases List.mem_append.mp h with h | h
        · exact Or.inl (prepPhase_events cfg disk task e h)
        · obtain ⟨hc, hm⟩ := basePass_mem cfg (runEnv cfg task lists) e h
          exact Or.inr (Or.inl ⟨lists, hc, hm⟩)
      · have hload : e = Event.loadResAdapter := by
          by_cases hr : cfg.res_adapter_model ≠ "" <;> simp [hr] at h
          · exact h
        exact Or.inr (Or.inr (Or.inl hload))
    · exact Or.inr (Or.inr (Or.inr ⟨lists, h⟩))

/-- A baseline call appears in a run's trace only when the comparison gate
evaluated to true. -/
theorem mainRun_baseline_enable (cfg : Config) (disk : Disk) (cs ts : String)
    (e : Event) (hmem : e ∈ (mainRun cfg disk cs ts).1)
    (hb : isBaselineCall e = true) : enableCompare cfg = true := by
  rcases mainRun_shape cfg disk cs ts with h | ⟨task, htask, h⟩
  · rw [h] at hmem
    simp at hmem
    rw [hmem] at hb
    simp [isBaselineCall] at hb
  rw [h] at hmem
  simp only [List.cons_append, List.nil_append, List.mem_cons] at hmem
  rcases hmem with hmem | hmem | hmem
  · rw [hmem] at hb; simp [isBaselineCall] at hb
  · rw [hmem] at hb; simp [isBaselineCall] at hb
  rcases runWithTask_mem cfg disk task e hmem with
    ⟨f, hf⟩ | ⟨lists, hc, _⟩ | hf | ⟨lists, hm⟩
  · rw [hf] at hb; simp [isBaselineCall] at hb
  · exact hc
  · rw [hf] at hb; simp [isBaselineCall] at hb
  · rcases adaptedLoop_mem (runEnv cfg task lists) cfg (enableCompare cfg)
        cfg.prompts.enum e hm with ⟨i, prompt, kw, _, he⟩ | ⟨i, f, he⟩ <;>
      · rw [he] at hb; simp [isBaselineCall] at hb

/-- Claim C1, counterexample: at a concrete controlnet/text_to_image
configuration (the `sub_task` key even present in the config file), the
run aborts with `UnboundLocalError` on `sub_task` and no pipeline call —
and hence no keyword-argument set `{image: condition_images[0]}` — ever
happens, contradicting the claimed kwargs-assembly table for the
controlnet rows. -/
theorem kwargs_table_counterexample :
    (mainRun cfgCtrl diskDemo "config" "T").2 =
      Except.error (PyErr.unboundLocal "sub_task")
    ∧ (mainRun cfgCtrl diskDemo "config" "T").1.filter isCall = [] :=
  ⟨rfl, rfl⟩

/-- Claim C1 (amended): the kwargs-assembly mapping is textually identical
at the baseline and res-adapter call sites, and for the pairs whose
assembly completes it is exactly the claimed table: t2i and
t2i_accelerate pass no extra kwargs; ip_adapter/image_variation passes
`ip_adapter_image`; ip_adapter/image_to_image passes `image`,
`ip_adapter_image` and `strength = 0.6`; ip_adapter/inpaint passes
`image`, `mask_image`, `ip_adapter_image` and `strength = 0.5`.  For
controlnet the assembly instead aborts reading the unbound `sub_task`
local, and for t2i_adapter the run never reaches assembly because task
dispatch raises `NotImplementedError`. -/
theorem kwargs_table_amended :
    (assembleKwargsBaseline = assembleKwargsAdapted)
    ∧ (∀ (env : AsmEnv) (i : Nat),
        env.task = "t2i" ∨ env.task = "t2i_accelerate" →
          assembleKwargsBaseline env i = Except.ok {})
    ∧ (∀ (env : AsmEnv) (i : Nat) (ip : Image),
        env.task = "ip_adapter" →
        env.sub_task = some (some "image_variation") →
        env.ip_adapter_images[i]? = some ip →
          assembleKwargsBaseline env i =
            Except.ok { ip_adapter_image := some ip })
    ∧ (∀ (env : AsmEnv) (i : Nat) (s ip : Image),
        env.task = "ip_adapter" →
        env.sub_task = some (some "image_to_image") →
        env.source_images[i]? = some s →
        env.ip_adapter_images[i]? = some ip →
          assembleKwargsBaseline env i =
            Except.ok { image := some s, ip_adapter_image := some ip,
                        strength := some (3/5 : ℚ) })
    ∧ (∀ (env : AsmEnv) (i : Nat) (s m ip : Image),
        env.task = "ip_adapter" →
        env.sub_task = some (some "inpaint") →
        env.source_images[i]? = some s →
        env.mask_images[i]? = some m →
        env.ip_adapter_images[i]? = some ip →
          assembleKwargsBaseline env i =
            Except.ok { image := some s, mask_image := some m,
                        ip_adapter_image := some ip,
                        strength := some (1/2 : ℚ) })
    ∧ (∀ (env : AsmEnv) (i : Nat),
        env.task = "controlnet" → env.sub_task = none →
          assembleKwargsBaseline env i =
            Except.error (PyErr.unboundLocal "sub_task"))
    ∧ (∀ (cfg : Config) (disk : Disk) (cs ts : String),
        cfg.task = some "t2i_adapter" →
          (mainRun cfg disk cs ts).2 =
            Except.error PyErr.notImplementedError) := by
  refine ⟨rfl, ?_, ?_, ?_, ?_, ?_, ?_⟩
  · rintro env i (h | h) <;> simp [assembleKwargsBaseline, h]
  · intro env i ip h1 h2 h3
    simp [assembleKwargsBaseline, h1, h2, readLocal, listIndex, h3,
      Except.bind]
  · intro env i s ip h1 h2 h3 h4
    simp [assembleKwargsBaseline, h1, h2, readLocal, listIndex, h3, h4,
      Except.bind]
  · intro env i s m ip h1 h2 h3 h4 h5
    simp [assembleKwargsBaseline, h1, h2, readLocal, listIndex, h3, h4, h5,
      Except.bind]
  · intro env i h1 h2
    simp [assembleKwargsBaseline, h1, h2, readLocal, Except.bind]
  · intro cfg disk cs ts h
    simp [mainRun, h]

/-- Claim C1, witness: the image-variation row of the amended table at a
concrete environment. -/
theorem kwargs_table_amended_witness :
    assembleKwargsBaseline envVar 0 =
      Except.ok { ip_adapter_image := some imgDemo } :=
  kwargs_table_amended.2.2.1 envVar 0 imgDemo rfl rfl rfl

/-- Claim C2, counterexample: a two-prompt run with comparison enabled
whose trace is not ordered by prompt index — the baseline call for
prompt 1 happens before the adapted call (and saves) for prompt 0, so
prompt 0 is not fully processed before processing of prompt 1 begins. -/
theorem two_pass_counterexample :
    enableCompare cfgTwo = true
    ∧ cfgTwo.prompts.length = 2
    ∧ ¬ fullySequential (mainRun cfgTwo diskDemo "c2" "T").1 := by
  refine ⟨rfl, rfl, ?_⟩
  unfold fullySequential
  decide

/-- Claim C2 (amended): every run is two-phase, not prompt-interleaved:
all baseline calls, in ascending prompt order, precede every adapted call
and every save; within the res-adapter phase, each prompt's call and
saves precede the next prompt's events. -/
theorem two_pass_amended (cfg : Config) (disk : Disk) (cs ts : String) :
    twoPassOrdered (mainRun cfg disk cs ts).1 := by
  unfold twoPassOrdered
  rcases mainRun_shape cfg disk cs ts with h | ⟨task, htask, h⟩
  · rw [h]; simp [passKey]
  rw [h]
  simp only [List.filterMap_append, List.filterMap_cons, passKey,
    List.filterMap_nil, List.nil_append]
  rcases runWithTask_shape cfg disk task with hs | ⟨lists, hprep, hs | hs⟩
  · rw [show (runWithTask cfg disk task).1 = (prepPhase cfg disk task).1 from
        congrArg Prod.fst hs]
    rw [prepPhase_keys]
    exact List.Pairwise.nil
  · rw [show (runWithTask cfg disk task).1 =
        (prepPhase cfg disk task).1 ++ (basePass cfg (runEnv cfg task lists)).1
        from congrArg Prod.fst hs]
    rw [List.filterMap_append, prepPhase_keys, List.nil_append]
    exact (basePass_keys cfg (runEnv cfg task lists)).1
  · rw [show (runWithTask cfg disk task).1 =
        (prepPhase cfg disk task).1 ++
          (basePass cfg (runEnv cfg task lists)).1 ++
          (if cfg.res_adapter_model ≠ "" then [Event.loadResAdapter]
           else []) ++
          (adaptedLoop (runEnv cfg task lists) cfg (enableCompare cfg)
             cfg.prompts.enum).1
        from congrArg Prod.fst hs]
    rw [List.filterMap_append, List.filterMap_append, List.filterMap_append,
      prepPhase_keys, List.nil_append, loadEvents_keys, List.append_nil]
    rw [List.pairwise_append]
    refine ⟨(basePass_keys cfg (runEnv cfg task lists)).1,
      (adaptedLoop_keys_enum (runEnv cfg task lists) cfg
        (enableCompare cfg)).1, ?_⟩
    intro a ha b hb
    have ha0 := (basePass_keys cfg (runEnv cfg task lists)).2 a ha
    have hb1 := (adaptedLoop_keys_enum (runEnv cfg task lists) cfg
      (enableCompare cfg)).2 b hb
    exact Or.inl (by rw [ha0, hb1]; exact Nat.zero_lt_one)

/-- Claim C3: for every controlnet configuration with a non-empty prompt
list, the run aborts with `UnboundLocalError` on `sub_task` — bound only
inside the ip_adapter branch — and the trace contains no pipeline call at
all, so no pipeline invocation for the first prompt completes. -/
theorem controlnet_unbound (cfg : Config) (disk : Disk) (cs ts : String)
    (ht : cfg.task = some "controlnet") (hp : cfg.prompts ≠ []) :
    (mainRun cfg disk cs ts).2 = Except.error (PyErr.unboundLocal "sub_task")
    ∧ ∀ e ∈ (mainRun cfg disk cs ts).1, isCall e = false := by
  obtain ⟨p, ps, hps⟩ := List.exists_cons_of_ne_nil hp
  have hmain : mainRun cfg disk cs ts =
      ([Event.mkdirOutput (outputDir cfg cs ts)] ++
         Event.loadPipeline "controlnet" ::
           (runWithTask cfg disk "controlnet").1,
       (runWithTask cfg disk "controlnet").2) := by
    simp [mainRun, ht]
  cases he : enableCompare cfg with
  | true =>
      have hrw : runWithTask cfg disk "controlnet" =
          ((prepControlnet cfg disk).1,
           Except.error (PyErr.unboundLocal "sub_task")) := by
        simp [runWithTask, prepPhase, basePass, runEnv, he, hps,
          baselineLoop, assembleKwargsBaseline, readLocal, Except.bind]
      rw [hmain, hrw]
      refine ⟨rfl, ?_⟩
      intro e hme
      simp at hme
      rcases hme with h1 | h1 | h1
      · simp [h1, isCall]
      · simp [h1, isCall]
      · obtain ⟨f, hf⟩ := prepControlnet_events cfg disk e h1
        simp [hf, isCall]
  | false =>
      have hrw : runWithTask cfg disk "controlnet" =
          ((prepControlnet cfg disk).1 ++ [] ++
             (if cfg.res_adapter_model ≠ "" then [Event.loadResAdapter]
              else []) ++ [],
           Except.error (PyErr.unboundLocal "sub_task")) := by
        simp [runWithTask, prepPhase, basePass, runEnv, he, hps,
          adaptedLoop, assembleKwargsAdapted, readLocal, Except.bind]
      rw [hmain, hrw]
      refine ⟨rfl, ?_⟩
      intro e hme
      simp at hme
      rcases hme with h1 | h1 | h1 | h1
      · simp [h1, isCall]
      · simp [h1, isCall]
      · obtain ⟨f, hf⟩ := prepControlnet_events cfg disk e h1
        simp [hf, isCall]
      · rcases h1 with ⟨_, h1⟩
        simp [h1, isCall]

/-- Claim C3, witness: a concrete controlnet run with comparison enabled
aborts with the unbound-name error. -/
theorem controlnet_unbound_witness :
    (mainRun cfgCtrlB diskDemo "cfg" "T").2 =
      Except.error (PyErr.unboundLocal "sub_task") :=
  (controlnet_unbound cfgCtrlB diskDemo "cfg" "T" rfl (by decide)).1

/-- Claim C4, counterexample: with scale ratio 0.5 and a native 7 x 6
source image, the code resizes to 3 x 3 (`int()` truncation of 3.5) while
the claimed `round(native * ratio)` gives 4 x 3; the two disagree. -/
theorem geometry_round_counterexample :
    ((prepControlnet cfgGeom diskGeom).2.2.map
        (fun im => (im.width, im.height)) = [(3, 3)])
    ∧ (cfgGeom.source_images.map (fun p =>
         specGeometryRound cfgGeom.scale_ratio cfgGeom.width cfgGeom.height
           (diskGeom p)) = [(4, 3)])
    ∧ ((prepControlnet cfgGeom diskGeom).2.2.map
        (fun im => (im.width, im.height))
       ≠ cfgGeom.source_images.map (fun p =>
           specGeometryRound cfgGeom.scale_ratio cfgGeom.width cfgGeom.height
             (diskGeom p))) :=
  ⟨rfl, rfl, by decide⟩

/-- Claim C4 (amended): target geometry per source image is truncation
(`int()`), not rounding: with a configured non-zero scale ratio every
prepared source image (controlnet, and ip_adapter/image_to_image where
the reference image shares the source-derived geometry) gets
`int(native * ratio)` computed independently per image; otherwise the
configured fixed width and height, each defaulting to 512 (a configured
ratio of value zero is falsy and also takes the fixed branch). -/
theorem geometry_trunc_amended (cfg : Config) (disk : Disk) :
    ((prepControlnet cfg disk).2.2.map (fun im => (im.width, im.height))
       = cfg.source_images.map (fun p =>
           specGeometryTrunc cfg.scale_ratio cfg.width cfg.height (disk p)))
    ∧ ((prepIpImg2Img cfg disk).2.map (fun im => (im.width, im.height))
       = (cfg.ip_adapter_images.zip cfg.source_images).map (fun pr =>
           specGeometryTrunc cfg.scale_ratio cfg.width cfg.height
             (disk pr.2)))
    ∧ ((prepIpImg2Img cfg disk).1.map (fun im => (im.width, im.height))
       = (cfg.ip_adapter_images.zip cfg.source_images).map (fun pr =>
           specGeometryTrunc cfg.scale_ratio cfg.width cfg.height
             (disk pr.2))) := by
  have hg : ∀ p : String,
      resolveWH cfg (disk p).1 (disk p).2 =
        specGeometryTrunc cfg.scale_ratio cfg.width cfg.height (disk p) := by
    intro p
    cases h : cfg.scale_ratio with
    | none => simp [resolveWH, specGeometryTrunc, h]
    | some r => by_cases hz : r.num = 0 <;>
        simp [resolveWH, specGeometryTrunc, h, hz]
  refine ⟨?_, ?_, ?_⟩ <;>
    simp [prepControlnet, prepIpImg2Img, Image.resized, Image.open,
      Image.canny3, hg]

/-- Claim C5: the baseline comparison gate.  (1) With an empty
adaptation-model path the whole run is independent of the compare flag
(the flag is never consulted), and (2) no baseline call ever happens;
(3) a baseline call in any trace forces a non-empty adaptation-model path
and the compare flag set; (4) conversely, a successful run with the gate
true and at least one prompt does perform a baseline call.  The gate
itself (`enableCompare`) is computed once, before the inference loops. -/
theorem compare_gate :
    (∀ (cfg : Config) (b : Bool) (disk : Disk) (cs ts : String),
       cfg.res_adapter_model = "" →
         mainRun { cfg with enable_compare := b } disk cs ts =
           mainRun cfg disk cs ts)
    ∧ (∀ (cfg : Config) (disk : Disk) (cs ts : String) (e : Event),
       cfg.res_adapter_model = "" → e ∈ (mainRun cfg disk cs ts).1 →
         isBaselineCall e = false)
    ∧ (∀ (cfg : Config) (disk : Disk) (cs ts : String) (e : Event),
       e ∈ (mainRun cfg disk cs ts).1 → isBaselineCall e = true →
         cfg.res_adapter_model ≠ "" ∧ cfg.enable_compare = true)
    ∧ (∀ (cfg : Config) (disk : Disk) (cs ts : String),
       (mainRun cfg disk cs ts).2 = Except.ok () →
       enableCompare cfg = true → cfg.prompts ≠ [] →
         ∃ e ∈ (mainRun cfg disk cs ts).1, isBaselineCall e = true) := by
  refine ⟨?_, ?_, ?_, ?_⟩
  · intro cfg b disk cs ts h
    have hec : enableCompare { cfg with enable_compare := b } =
        enableCompare cfg := by
      simp [enableCompare, h]
    have hcp : commonParams { cfg with enable_compare := b }
        = commonParams cfg := rfl
    have hsv : savesFor { cfg with enable_compare := b } = savesFor cfg := rfl
    have hbase : ∀ (env : AsmEnv) (l : List (Nat × String)),
        baselineLoop env { cfg with enable_compare := b } l
          = baselineLoop env cfg l := by
      intro env l
      induction l with
      | nil => rfl
      | cons hd tl ih =>
          obtain ⟨i, p⟩ := hd
          simp only [baselineLoop, ih, hcp]
    have hadapt : ∀ (env : AsmEnv) (en : Bool) (l : List (Nat × String)),
        adaptedLoop env { cfg with enable_compare := b } en l
          = adaptedLoop env cfg en l := by
      intro env en l
      induction l with
      | nil => rfl
      | cons hd tl ih =>
          obtain ⟨i, p⟩ := hd
          simp only [adaptedLoop, ih, hcp, hsv]
    have hprep : ∀ t, prepPhase { cfg with enable_compare := b } disk t
        = prepPhase cfg disk t := fun t => rfl
    have hrenv : ∀ t lists, runEnv { cfg with enable_compare := b } t lists
        = runEnv cfg t lists := fun t lists => rfl
    have hout : outputDir { cfg with enable_compare := b } cs ts
        = outputDir cfg cs ts := rfl
    simp only [mainRun, runWithTask, basePass, hec, hbase, hadapt, hprep,
      hrenv, hout]
  · intro cfg disk cs ts e h hmem
    cases hbe : isBaselineCall e with
    | false => rfl
    | true =>
        have hc := mainRun_baseline_enable cfg disk cs ts e hmem hbe
        rw [enableCompare, if_pos h] at hc
        exact absurd hc (by simp)
  · intro cfg disk cs ts e hmem hb
    have hc := mainRun_baseline_enable cfg disk cs ts e hmem hb
    by_cases hr : cfg.res_adapter_model = ""
    · rw [enableCompare, if_pos hr] at hc
      exact absurd hc (by simp)
    · rw [enableCompare, if_neg hr] at hc
      exact ⟨hr, hc⟩
  · intro cfg disk cs ts hok hen hp
    obtain ⟨p, ps, hps⟩ := List.exists_cons_of_ne_nil hp
    rcases mainRun_shape cfg disk cs ts with h | ⟨task, htask, h⟩
    · rw [h] at hok; simp at hok
    have hok' : (runWithTask cfg disk task).2 = Except.ok () := by
      have hsnd := congrArg Prod.snd h
      simp only at hsnd
      rw [hsnd] at hok
      exact hok
    obtain ⟨lists, hprep⟩ : ∃ lists,
        (prepPhase cfg disk task).2 = Except.ok lists := by
      cases hprep : (prepPhase cfg disk task).2 with
      | error err =>
          rw [runWithTask] at hok'
          rw [hprep] at hok'
          simp at hok'
      | ok lists => exact ⟨lists, rfl⟩
    cases hbase : (basePass cfg (runEnv cfg task lists)).2 with
    | error err =>
        rw [runWithTask] at hok'
        rw [hprep] at hok'
        simp only [] at hok'
        rw [hbase] at hok'
        simp at hok'
    | ok u =>
        have hbl : (baselineLoop (runEnv cfg task lists) cfg
            cfg.prompts.enum).2 = Except.ok u := by
          rw [basePass, if_pos hen] at hbase
          exact hbase
        have henum : cfg.prompts.enum =
            (0, p) :: List.enumFrom 1 ps := by
          rw [hps]; rfl
        rw [henum] at hbl
        cases hasm : assembleKwargsBaseline (runEnv cfg task lists) 0 with
        | error err =>
            rw [baselineLoop, hasm] at hbl
            simp at hbl
        | ok kw =>
            refine ⟨Event.baselineCall 0 kw (commonParams cfg p), ?_, rfl⟩
            have hhead : Event.baselineCall 0 kw (commonParams cfg p) ∈
                (basePass cfg (runEnv cfg task lists)).1 := by
              rw [basePass, if_pos hen, henum, baselineLoop, hasm]
              simp
            have hs : runWithTask cfg disk task =
                ((prepPhase cfg disk task).1 ++
                   (basePass cfg (runEnv cfg task lists)).1 ++
                   (if cfg.res_adapter_model ≠ "" then [Event.loadResAdapter]
                    else []) ++
                   (adaptedLoop (runEnv cfg task lists) cfg
                      (enableCompare cfg) cfg.prompts.enum).1,
                 (runWithTask cfg disk task).2) := by
              simp only [runWithTask, hprep, hbase]
            rw [h, show (runWithTask cfg disk task).1 =
                (prepPhase cfg disk task).1 ++
                  (basePass cfg (runEnv cfg task lists)).1 ++
                  (if cfg.res_adapter_model ≠ "" then [Event.loadResAdapter]
                   else []) ++
                  (adaptedLoop (runEnv cfg task lists) cfg
                     (enableCompare cfg) cfg.prompts.enum).1
                from congrArg Prod.fst hs]
            simp [List.mem_append, hhead]

/-- Claim C5, witness: a concrete trace's baseline call forces the
adaptation-model path non-empty and the compare flag set. -/
theorem compare_gate_witness :
    cfgCmp.res_adapter_model ≠ "" ∧ cfgCmp.enable_compare = true :=
  compare_gate.2.2.1 cfgCmp diskDemo "c5" "T"
    (Event.baselineCall 0 {} (commonParams cfgCmp "a"))
    (by decide) rfl

/-- Claim C6: loading the res-adapter is best-effort for the normalization
weights — a failed read is caught, the skip message is logged, the unet
weights stay untouched, and the run continues — while the lora weights
are loaded afterwards and registered under the fixed adapter name
"res_adapter" on every successful load; a missing lora file raises. -/
theorem load_resadapter_best_effort :
    (∀ (p : Pipeline) (lora : List (String × Int)),
       load_resadapter p { norm_file := none, lora_file := some lora } =
         Except.ok ({ p with adapters := p.adapters ++ ["res_adapter"] },
           ["There is no normalization safetensors, we can only load lora safetensors for resolution interpolation."]))
    ∧ (∀ (p : Pipeline) (nf : Option (List (String × Int))),
       load_resadapter p { norm_file := nf, lora_file := none } =
         Except.error PyErr.fileNotFoundError)
    ∧ (∀ (p : Pipeline) (d : WeightsDir) (q : Pipeline) (logs : List String),
       load_resadapter p d = Except.ok (q, logs) →
         q.adapters = p.adapters ++ ["res_adapter"]) := by
  refine ⟨fun p lora => rfl, fun p nf => ?_, fun p d q logs h => ?_⟩
  · cases nf <;> rfl
  · cases hd : d.lora_file with
    | none => simp [load_resadapter, hd] at h
    | some l =>
        cases hn : d.norm_file <;>
          (simp [load_resadapter, hd, hn] at h; simp [← h.1])

/-- Claim C6, witness: a concrete successful load registers
"res_adapter" after the existing adapters. -/
theorem load_resadapter_best_effort_witness :
    ({ unet_weights := [("norm.w", 2)],
       adapters := ["lcm_lora", "res_adapter"] } : Pipeline).adapters =
      (({ unet_weights := [("norm.w", 1)], adapters := ["lcm_lora"] } :
          Pipeline).adapters) ++ ["res_adapter"] :=
  load_resadapter_best_effort.2.2
    { unet_weights := [("norm.w", 1)], adapters := ["lcm_lora"] }
    { norm_file := some [("norm.w", 2)], lora_file := some [("lora.w", 5)] }
    { unet_weights := [("norm.w", 2)],
      adapters := ["lcm_lora", "res_adapter"] }
    ["Load normalization safetensors."] rfl

/-- Claim C7: an unrecognized task tag makes the run abort with
`NotImplementedError` at the dispatch step: the trace holds only the
output-directory creation — no pipeline construction, no pipeline call,
and no cleanup of the created directory. -/
theorem unknown_task_aborts (cfg : Config) (disk : Disk) (cs ts : String)
    (h1 : cfg.task ≠ some "t2i") (h2 : cfg.task ≠ some "t2i_accelerate")
    (h3 : cfg.task ≠ some "controlnet") (h4 : cfg.task ≠ some "ip_adapter") :
    mainRun cfg disk cs ts =
      ([Event.mkdirOutput (outputDir cfg cs ts)],
       Except.error PyErr.notImplementedError) := by
  simp [mainRun, h1, h2, h3, h4]

/-- Claim C7, witness: the task tag "bogus". -/
theorem unknown_task_aborts_witness :
    mainRun cfgBogus diskDemo "conf" "T" =
      ([Event.mkdirOutput "samples/conf-T"],
       Except.error PyErr.notImplementedError) :=
  unknown_task_aborts cfgBogus diskDemo "conf" "T"
    (by decide) (by decide) (by decide) (by decide)

/-- Claim C8: ip_adapter image_to_image and inpaint preparation zip the
configured path lists by position: preparation succeeds whatever the list
lengths and every produced list has the length of the shortest input
list, silently dropping the trailing entries of the longer ones. -/
theorem zip_truncation :
    (∀ (cfg : Config) (disk : Disk), cfg.sub_task = some "image_to_image" →
       prepPhase cfg disk "ip_adapter" =
         ([], Except.ok { ip_adapter_images := (prepIpImg2Img cfg disk).1,
                          source_images := (prepIpImg2Img cfg disk).2 })
       ∧ (prepIpImg2Img cfg disk).1.length =
           min cfg.ip_adapter_images.length cfg.source_images.length
       ∧ (prepIpImg2Img cfg disk).2.length =
           min cfg.ip_adapter_images.length cfg.source_images.length)
    ∧ (∀ (cfg : Config) (disk : Disk), cfg.sub_task = some "inpaint" →
       prepPhase cfg disk "ip_adapter" =
         ([], Except.ok { ip_adapter_images := (prepIpInpaint cfg disk).1,
                          source_images := (prepIpInpaint cfg disk).2.1,
                          mask_images := (prepIpInpaint cfg disk).2.2 })
       ∧ (prepIpInpaint cfg disk).1.length =
           min cfg.ip_adapter_images.length
             (min cfg.source_images.length cfg.mask_images.length)
       ∧ (prepIpInpaint cfg disk).2.1.length =
           min cfg.ip_adapter_images.length
             (min cfg.source_images.length cfg.mask_images.length)
       ∧ (prepIpInpaint cfg disk).2.2.length =
           min cfg.ip_adapter_images.length
             (min cfg.source_images.length cfg.mask_images.length)) := by
  constructor
  · intro cfg disk h
    refine ⟨by simp [prepPhase, h], ?_, ?_⟩ <;> simp [prepIpImg2Img]
  · intro cfg disk h
    refine ⟨by simp [prepPhase, h], ?_, ?_, ?_⟩ <;> simp [prepIpInpaint]

/-- Claim C8, witness: concrete mismatched lists truncate to the shortest
length for both sub-tasks. -/
theorem zip_truncation_witness :
    (prepIpImg2Img cfgZipA diskDemo).1.length =
      min cfgZipA.ip_adapter_images.length cfgZipA.source_images.length
    ∧ (prepIpInpaint cfgZipB diskDemo).1.length =
      min cfgZipB.ip_adapter_images.length
        (min cfgZipB.source_images.length cfgZipB.mask_images.length) :=
  ⟨(zip_truncation.1 cfgZipA diskDemo rfl).2.1,
   (zip_truncation.2 cfgZipB diskDemo rfl).2.1⟩

/-- Claim C9: for task t2i_adapter the dispatch raises
`NotImplementedError` right after creating the output directory, so the
t2i_adapter preparation branch and kwargs-assembly rows are unreachable:
the trace holds no pipeline construction, preparation or call event. -/
theorem t2i_adapter_unreachable (cfg : Config) (disk : Disk) (cs ts : String)
    (h : cfg.task = some "t2i_adapter") :
    mainRun cfg disk cs ts =
      ([Event.mkdirOutput (outputDir cfg cs ts)],
       Except.error PyErr.notImplementedError) := by
  simp [mainRun, h]

/-- Claim C9, witness: a concrete t2i_adapter configuration. -/
theorem t2i_adapter_unreachable_witness :
    mainRun cfgT2ia diskDemo "c9" "T" =
      ([Event.mkdirOutput "samples/c9-T"],
       Except.error PyErr.notImplementedError) :=
  t2i_adapter_unreachable cfgT2ia diskDemo "c9" "T" rfl

/-- Claim C10: every pipeline call in every trace — baseline or adapted,
whatever the task — passes the configured fixed height and width (each
defaulting to 512); in particular the height/width arguments never depend
on the scale ratio or on any native image size. -/
theorem call_geometry_fixed (cfg : Config) (disk : Disk) (cs ts : String)
    (e : Event) (p : CommonParams) (hmem : e ∈ (mainRun cfg disk cs ts).1)
    (hp : callParamsOf e = some p) :
    p.height = cfg.height.getD 512 ∧ p.width = cfg.width.getD 512 := by
  rcases mainRun_shape cfg disk cs ts with h | ⟨task, htask, h⟩
  · rw [h] at hmem
    simp at hmem
    rw [hmem] at hp
    simp [callParamsOf] at hp
  rw [h] at hmem
  simp only [List.cons_append, List.nil_append, List.mem_cons] at hmem
  rcases hmem with hmem | hmem | hmem
  · rw [hmem] at hp; simp [callParamsOf] at hp
  · rw [hmem] at hp; simp [callParamsOf] at hp
  rcases runWithTask_mem cfg disk task e hmem with
    ⟨f, hf⟩ | ⟨lists, _, hm⟩ | hf | ⟨lists, hm⟩
  · rw [hf] at hp; simp [callParamsOf] at hp
  · obtain ⟨i, prompt, kw, _, he⟩ :=
      baselineLoop_mem (runEnv cfg task lists) cfg cfg.prompts.enum e hm
    rw [he] at hp
    simp only [callParamsOf, Option.some.injEq] at hp
    rw [← hp]
    exact ⟨rfl, rfl⟩
  · rw [hf] at hp; simp [callParamsOf] at hp
  · rcases adaptedLoop_mem (runEnv cfg task lists) cfg (enableCompare cfg)
        cfg.prompts.enum e hm with ⟨i, prompt, kw, _, he⟩ | ⟨i, f, he⟩
    · rw [he] at hp
      simp only [callParamsOf, Option.some.injEq] at hp
      rw [← hp]
      exact ⟨rfl, rfl⟩
    · rw [he] at hp; simp [callParamsOf] at hp

/-- Claim C10, witness: the adapted call of a concrete run carries
height 512 and width 512. -/
theorem call_geometry_fixed_witness :
    (commonParams cfgTen "p").height = 512
    ∧ (commonParams cfgTen "p").width = 512 :=
  call_geometry_fixed cfgTen diskDemo "c10" "T"
    (Event.adaptedCall 0 {} (commonParams cfgTen "p"))
    (commonParams cfgTen "p") (by decide) rfl
